import Mathlib

/-!
# Verification of the `let_me_go.py` reminder scheduler

Shallow embedding of the scheduling core of `src/let_me_go.py`:
time-of-day parsing (`parse_time`), window membership (`time_in_range`),
configuration loading/saving (`ConfigManager.load_config` / `save_config`),
and the once-per-tick decision logic of `LetMeGoApp.reminder_service`.

Conventions of the embedding:
* A `datetime.datetime` is an `Int`: microseconds since an epoch chosen to be
  a Monday midnight.  `datetime` arithmetic (`timedelta`, `combine`, `date()`,
  comparisons) is exact integer arithmetic on microseconds; `weekday()+1`
  becomes `(day mod 7) + 1` with `1 = Monday`.
* A `datetime.time` is a `PyTime` record of hour/minute/second/microsecond;
  comparison of in-range times is comparison of total microseconds.
* Python floats only appear via `total_seconds()` and
  `timedelta(minutes = float)`; at the magnitudes the program handles
  (microsecond counts far below 2^53) those float computations are exact, so
  they are modelled by exact rational arithmetic (`pyRound` models the
  half-to-even microsecond rounding performed by `timedelta`).
* Python strings are Lean `String`s; `str.split(":")` and `int(...)` are
  re-implemented structurally on the character list (the underscore digit
  separators accepted by Python's `int` are not modelled).
* File I/O and JSON (de)serialisation are modelled by a `ConfigStore` that
  either fails (missing / unreadable file) or holds the parsed JSON record
  (`RawConfig`, every key optional); writing then reading back a JSON record
  is the identity on the record.
-/

namespace LetMeGo

/-- Microseconds per second. -/
def usPerSec : Int := 1000000

/-- Microseconds per minute. -/
def usPerMin : Int := 60000000

/-- Microseconds per day. -/
def usPerDay : Int := 86400000000

/-- A `datetime.time` value: hour, minute, second, microsecond. -/
structure PyTime where
  hour : Nat
  minute : Nat
  second : Nat
  microsecond : Nat
deriving DecidableEq, Repr

/-- Total microseconds since midnight of a `PyTime`. -/
def PyTime.toMicros (t : PyTime) : Nat :=
  ((t.hour * 60 + t.minute) * 60 + t.second) * 1000000 + t.microsecond

/-- `datetime.time` comparison; on the in-range values produced by `datetime`
it coincides with Python's field-lexicographic order. -/
instance : LE PyTime := ⟨fun a b => a.toMicros ≤ b.toMicros⟩

instance (a b : PyTime) : Decidable (a ≤ b) :=
  inferInstanceAs (Decidable (a.toMicros ≤ b.toMicros))

instance : LT PyTime := ⟨fun a b => a.toMicros < b.toMicros⟩

instance (a b : PyTime) : Decidable (a < b) :=
  inferInstanceAs (Decidable (a.toMicros < b.toMicros))

/-- Python `str.split(":")` on a character list: `"a::b" ↦ ["a","","b"]`,
`"" ↦ [""]`. -/
def splitOnColon : List Char → List (List Char)
  | [] => [[]]
  | c :: rest =>
    match splitOnColon rest with
    | [] => [[c]]
    | g :: gs => if c = ':' then [] :: g :: gs else (c :: g) :: gs

/-- Decimal value of a digit character. -/
def digitVal (c : Char) : Option Nat :=
  if '0' ≤ c ∧ c ≤ '9' then some (c.toNat - 48) else none

/-- Decimal value of a non-empty all-digit character list. -/
def digitsVal : List Char → Option Nat
  | [] => none
  | [c] => digitVal c
  | c :: rest =>
    match digitsVal rest, digitVal c with
    | some n, some d => some (d * 10 ^ rest.length + n)
    | _, _ => none

/-- Is `c` one of the whitespace characters stripped by Python's `int`. -/
def isPySpace (c : Char) : Bool :=
  c = ' ' ∨ c = '\t' ∨ c = '\n' ∨ c = '\x0d' ∨ c = '\x0b' ∨ c = '\x0c'

/-- Python `int(str)`: strip whitespace, optional sign, non-empty digits. -/
def pyInt (cs : List Char) : Option Int :=
  let cs := (cs.dropWhile isPySpace).reverse.dropWhile isPySpace |>.reverse
  match cs with
  | '-' :: rest => (digitsVal rest).map (fun n => -(n : Int))
  | '+' :: rest => (digitsVal rest).map (fun n => (n : Int))
  | _ => (digitsVal cs).map (fun n => (n : Int))

/-- `parse_time` (src line 158): `hour, minute = map(int, time_str.split(":"))`
then `datetime.time(hour, minute)`; any `ValueError` (wrong number of parts,
non-numeric part, out-of-range field) is caught and `None` is returned. -/
def parse_time (s : String) : Option PyTime :=
  match splitOnColon s.toList with
  | [hs, ms] =>
    match pyInt hs, pyInt ms with
    | some h, some m =>
      if 0 ≤ h ∧ h ≤ 23 ∧ 0 ≤ m ∧ m ≤ 59 then
        some ⟨h.toNat, m.toNat, 0, 0⟩
      else none
    | _, _ => none
  | _ => none

/-- `time_in_range` (src line 167). -/
def time_in_range (start_time end_time current_time : PyTime) : Bool :=
  if start_time ≤ end_time then
    decide (start_time ≤ current_time ∧ current_time ≤ end_time)
  else
    decide (start_time ≤ current_time ∨ current_time ≤ end_time)

/-- One configured window: the `{"start": ..., "end": ...}` JSON records held
in `work_periods` / `block_periods`. -/
structure Period where
  start : String
  «end» : String
deriving DecidableEq, Repr

/-- The configuration record (the seven keys written by `validate_and_start`
and present in `ConfigManager.default_config`). -/
structure Config where
  work_periods : List Period
  block_periods : List Period
  interval_minutes : Int
  auto_start : Bool
  workdays : List Int
  off_work_time : String
  off_work_reminder_enabled : Bool
deriving DecidableEq, Repr

/-- `ConfigManager.default_config` (src line 43). -/
def default_config : Config where
  work_periods := [⟨"09:00", "18:00"⟩]
  block_periods := [⟨"12:00", "13:30"⟩]
  interval_minutes := 60
  auto_start := false
  workdays := [1, 2, 3, 4, 5]
  off_work_time := "18:00"
  off_work_reminder_enabled := true

/-- The scheduler's mutable per-tick state (`self.last_reminder_time`,
`self.next_reminder`, `self.last_off_work_reminder_date`,
`self.is_first_start`).  Timestamps are datetimes (`Int` microseconds),
`last_off_work_reminder_date` is a calendar date (`Int` day number). -/
structure State where
  last_reminder_time : Option Int
  next_reminder : Option Int
  last_off_work_reminder_date : Option Int
  is_first_start : Bool
deriving DecidableEq, Repr

/-- State at service start (`LetMeGoApp.__init__`). -/
def initialState : State where
  last_reminder_time := none
  next_reminder := none
  last_off_work_reminder_date := none
  is_first_start := true

/-- `now.date()` as a day number (floor division; for the positive divisor
`usPerDay`, Euclidean division coincides with Python's floor division). -/
def dtDate (t : Int) : Int := t / usPerDay

/-- `now.weekday() + 1` (src line 737): `1 = Monday .. 7 = Sunday`; the epoch
day 0 is a Monday. -/
def dtWeekday (t : Int) : Int := dtDate t % 7 + 1

/-- `now.time()`: the time-of-day part of a datetime. -/
def dtTime (t : Int) : PyTime :=
  let r := (t % usPerDay).toNat
  ⟨r / 3600000000, r / 60000000 % 60, r / 1000000 % 60, r % 1000000⟩

/-- `datetime.datetime.combine(day, timeOfDay)`. -/
def combine (day : Int) (t : PyTime) : Int := day * usPerDay + (t.toMicros : Int)

/-- Does `current_time` fall inside the window `p`?  Mirrors the per-period
body of the loops at src lines 776-781 and 785-790: both endpoint texts must
parse, and then `time_in_range` decides membership; a period with a malformed
endpoint contributes `False`. -/
def windowMatch (p : Period) (current_time : PyTime) : Bool :=
  match parse_time p.start, parse_time p.«end» with
  | some s, some e => time_in_range s e current_time
  | _, _ => false

/-- OR of `windowMatch` over a period list (the `for` loops with `break`). -/
def inAnyWindow (ps : List Period) (current_time : PyTime) : Bool :=
  ps.any (fun p => windowMatch p current_time)

/-- `is_workday = weekday in workdays` (src line 752). -/
def isWorkdayB (cfg : Config) (now : Int) : Bool :=
  decide (dtWeekday now ∈ cfg.workdays)

/-- `in_work_period` (src lines 774-781): on a workday, is `now.time()` in
some work period. -/
def inWorkPeriodB (cfg : Config) (now : Int) : Bool :=
  isWorkdayB cfg now && inAnyWindow cfg.work_periods (dtTime now)

/-- `in_block_period` (src lines 784-790): is `now.time()` in some block
period (checked regardless of workday). -/
def inBlockPeriodB (cfg : Config) (now : Int) : Bool :=
  inAnyWindow cfg.block_periods (dtTime now)

/-- The effective condition of src line 792:
`in_work_period and not in_block_period`. -/
def effectiveCond (cfg : Config) (now : Int) : Bool :=
  inWorkPeriodB cfg now && !inBlockPeriodB cfg now

/-- The guard of the end-of-shift check minus the once-per-day latch
(src lines 755-764): workday, reminder enabled, non-empty time text that
parses, and `|now - (today@off_work_time - 10 min)| <= 30 s`. -/
def offWindowCond (cfg : Config) (now : Int) : Bool :=
  isWorkdayB cfg now && cfg.off_work_reminder_enabled &&
    decide (cfg.off_work_time ≠ "") &&
    match parse_time cfg.off_work_time with
    | some t =>
      let off_work_dt := combine (dtDate now) t
      let reminder_dt := off_work_dt - 10 * usPerMin
      decide ((now - reminder_dt).natAbs ≤ 30000000)
    | none => false

/-- The end-of-shift check (src lines 755-771): returns whether the
end-of-shift notification fires this tick and the new value of
`last_off_work_reminder_date` (before the daily reset). -/
def offWorkCheck (cfg : Config) (st : State) (now : Int) : Bool × Option Int :=
  if offWindowCond cfg now then
    if st.last_off_work_reminder_date ≠ some (dtDate now) then
      (true, some (dtDate now))
    else
      (false, st.last_off_work_reminder_date)
  else
    (false, st.last_off_work_reminder_date)

/-- `round(q)` as used inside `datetime.timedelta`: half-to-even rounding of
the microsecond count. -/
def pyRound (q : ℚ) : Int :=
  let f := ⌊q⌋
  let r := q - f
  if r < 1 / 2 then f
  else if 1 / 2 < r then f + 1
  else if f % 2 = 0 then f else f + 1

/-- Candidate list: next start of each work period (src lines 817-824), only
on workdays; today's start rolled one day forward if already passed. -/
def workStartCandidates (cfg : Config) (now : Int) : List Int :=
  if isWorkdayB cfg now then
    cfg.work_periods.filterMap fun p =>
      (parse_time p.start).map fun t =>
        let start_dt := combine (dtDate now) t
        if start_dt ≤ now then start_dt + usPerDay else start_dt
  else []

/-- The `days_ahead` search of src lines 828-832: smallest `1 ≤ d ≤ 7` with
`(weekday + d - 1) % 7 + 1` in `workdays`, if any. -/
def nextWorkdayDaysAhead (weekday : Int) (workdays : List Int) : Option Nat :=
  ((List.range 7).map (fun i => i + 1)).find?
    (fun d => decide ((weekday + (d : Int) - 1) % 7 + 1 ∈ workdays))

/-- Candidate list: on a non-workday, the first work period's start on the
next allowed workday within 7 days (src lines 827-838); empty if the search
fails or the start text does not parse. -/
def weekendCandidates (cfg : Config) (now : Int) : List Int :=
  if !isWorkdayB cfg now && decide (cfg.workdays ≠ []) then
    match nextWorkdayDaysAhead (dtWeekday now) cfg.workdays with
    | some days_ahead =>
      match cfg.work_periods with
      | [] => []
      | first_period :: _ =>
        match parse_time first_period.start with
        | some t => [combine (dtDate now + days_ahead) t]
        | none => []
    | none => []
  else []

/-- Candidate list: end of each block period, today or rolled one day forward
if already passed (src lines 841-847). -/
def blockEndCandidates (cfg : Config) (now : Int) : List Int :=
  cfg.block_periods.filterMap fun p =>
    (parse_time p.«end»).map fun e =>
      let block_end_dt := combine (dtDate now) e
      if block_end_dt ≤ now then block_end_dt + usPerDay else block_end_dt

/-- `next_times` of the not-currently-active branch (src lines 814-847). -/
def nextTimes (cfg : Config) (now : Int) : List Int :=
  workStartCandidates cfg now ++ weekendCandidates cfg now ++
    blockEndCandidates cfg now

/-- Python `min` over a non-empty list. -/
def listMin : List Int → Option Int
  | [] => none
  | x :: xs => some (xs.foldl min x)

/-- Result of the regular-reminder decision (src lines 792-853): whether the
stand-up notification fires, and the new `last_reminder_time`,
`next_reminder` and `is_first_start`. -/
structure MainResult where
  fired : Bool
  last_reminder_time : Option Int
  next_reminder : Option Int
  is_first_start : Bool
deriving DecidableEq, Repr

/-- The regular-reminder decision (src lines 792-853).  The comparison
`(now - last).total_seconds() >= interval * 60` is modelled exactly on
microseconds; the display estimate `now + timedelta(minutes = interval -
elapsed)` follows the source's float expression as exact rational arithmetic
with `timedelta`'s rounding to whole microseconds. -/
def mainDecision (cfg : Config) (st : State) (now : Int) : MainResult :=
  let interval := cfg.interval_minutes
  if effectiveCond cfg now then
    if st.is_first_start then
      { fired := false, last_reminder_time := some now,
        next_reminder := some (now + interval * usPerMin),
        is_first_start := false }
    else
      match st.last_reminder_time with
      | none =>
        { fired := true, last_reminder_time := some now,
          next_reminder := some (now + interval * usPerMin),
          is_first_start := st.is_first_start }
      | some last =>
        if interval * 60 * usPerSec ≤ now - last then
          { fired := true, last_reminder_time := some now,
            next_reminder := some (now + interval * usPerMin),
            is_first_start := st.is_first_start }
        else
          let elapsed : ℚ := ((now - last : Int) : ℚ) / 1000000 / 60
          let remaining : ℚ := (interval : ℚ) - elapsed
          { fired := false, last_reminder_time := st.last_reminder_time,
            next_reminder := some (now + pyRound (remaining * 60 * 1000000)),
            is_first_start := st.is_first_start }
  else
    { fired := false, last_reminder_time := st.last_reminder_time,
      next_reminder := some
        (match listMin (nextTimes cfg now) with
         | some m => m
         | none => now + 3600 * usPerSec),
      is_first_start := st.is_first_start }

/-- The daily reset of the end-of-shift latch (src lines 856-857). -/
def dailyReset (d : Option Int) (today : Int) : Option Int :=
  match d with
  | some x => if x < today then none else some x
  | none => none

/-- Everything one loop iteration of `reminder_service` produces. -/
structure TickResult where
  state : State
  standUpFired : Bool
  offWorkFired : Bool
deriving DecidableEq, Repr

/-- One iteration of the `reminder_service` loop (src lines 729-857) at time
`now` with prior state `st`: the `if not work_periods: continue` early exit
(src lines 747-749, no state change, nothing fires), the end-of-shift check,
the regular-reminder decision, and the daily latch reset. -/
def tick (cfg : Config) (st : State) (now : Int) : TickResult :=
  if cfg.work_periods = [] then
    { state := st, standUpFired := false, offWorkFired := false }
  else
    let offR := offWorkCheck cfg st now
    let m := mainDecision cfg st now
    { state :=
        { last_reminder_time := m.last_reminder_time
          next_reminder := m.next_reminder
          last_off_work_reminder_date := dailyReset offR.2 (dtDate now)
          is_first_start := m.is_first_start }
      standUpFired := m.fired
      offWorkFired := offR.1 }

/-- The calendar dates (in order) at which the end-of-shift notification
fires across a sequence of ticks at the given times. -/
def firedDates (cfg : Config) : State → List Int → List Int
  | _, [] => []
  | st, n :: ns =>
    let r := tick cfg st n
    if r.offWorkFired then dtDate n :: firedDates cfg r.state ns
    else firedDates cfg r.state ns

/-- The JSON record held in `config.json`, as `json.load` returns it: every
key of the current format plus the legacy keys, each possibly absent.
(`none` models an absent key.) -/
structure RawConfig where
  work_periods : Option (List Period)
  block_periods : Option (List Period)
  interval_minutes : Option Int
  auto_start : Option Bool
  workdays : Option (List Int)
  off_work_time : Option String
  off_work_reminder_enabled : Option Bool
  start_time : Option String
  end_time : Option String
  block_start : Option String
  block_end : Option String
deriving DecidableEq, Repr

/-- The state of the configuration file as `load_config` finds it: absent,
unreadable/corrupt (any exception while reading or parsing), or a parsed
JSON record. -/
inductive ConfigStore where
  | missing
  | unreadable
  | stored (r : RawConfig)
deriving DecidableEq, Repr

/-- The legacy-format conversion of src lines 64-77: builds a fresh record
from `start_time`/`end_time`/`block_start`/`block_end`, keeping only
`interval_minutes` and `auto_start` (with their `get` defaults) and dropping
every other key. -/
def legacyConvert (r : RawConfig) : RawConfig where
  work_periods :=
    some [⟨r.start_time.getD "09:00", r.end_time.getD "18:00"⟩]
  block_periods :=
    some [⟨r.block_start.getD "12:00", r.block_end.getD "13:30"⟩]
  interval_minutes := some (r.interval_minutes.getD 60)
  auto_start := some (r.auto_start.getD false)
  workdays := none
  off_work_time := none
  off_work_reminder_enabled := none
  start_time := none
  end_time := none
  block_start := none
  block_end := none

/-- The post-processing of a successfully parsed record (src lines 63-87):
legacy conversion when `start_time` is present and `work_periods` absent,
then the default-merge loop (every missing key filled from
`default_config`), then replacement of empty `work_periods` /
`block_periods` by the defaults. -/
def processRaw (r0 : RawConfig) : Config :=
  let r := if r0.start_time.isSome && !r0.work_periods.isSome then
             legacyConvert r0
           else r0
  let wp := r.work_periods.getD default_config.work_periods
  let bp := r.block_periods.getD default_config.block_periods
  { work_periods := if wp = [] then default_config.work_periods else wp
    block_periods := if bp = [] then default_config.block_periods else bp
    interval_minutes := r.interval_minutes.getD default_config.interval_minutes
    auto_start := r.auto_start.getD default_config.auto_start
    workdays := r.workdays.getD default_config.workdays
    off_work_time := r.off_work_time.getD default_config.off_work_time
    off_work_reminder_enabled :=
      r.off_work_reminder_enabled.getD default_config.off_work_reminder_enabled }

/-- `ConfigManager.load_config` (src lines 57-91): the default configuration
when the file is absent or any read/parse error occurs, otherwise the
post-processed record. -/
def load_config (s : ConfigStore) : Config :=
  match s with
  | .missing => default_config
  | .unreadable => default_config
  | .stored r => processRaw r

/-- `ConfigManager.save_config` (src lines 93-101) on the success path:
`json.dump` writes exactly the seven keys of the config record (legacy keys
are never written); reading the file back yields the same record. -/
def save_config (c : Config) : RawConfig where
  work_periods := some c.work_periods
  block_periods := some c.block_periods
  interval_minutes := some c.interval_minutes
  auto_start := some c.auto_start
  workdays := some c.workdays
  off_work_time := some c.off_work_time
  off_work_reminder_enabled := some c.off_work_reminder_enabled
  start_time := none
  end_time := none
  block_start := none
  block_end := none

/-- What `validate_and_start` (src lines 495-560) guarantees about a
configuration it accepts and saves: at least one work period, every kept
window endpoint parses, a positive integer interval, at least one selected
workday (necessarily in `1..7`), and a non-empty off-work time that parses
(the blank entry is replaced by `"18:00"`). -/
def validatedConfig (c : Config) : Prop :=
  c.work_periods ≠ [] ∧
  (∀ p ∈ c.work_periods,
    (parse_time p.start).isSome ∧ (parse_time p.«end»).isSome) ∧
  (∀ p ∈ c.block_periods,
    (parse_time p.start).isSome ∧ (parse_time p.«end»).isSome) ∧
  0 < c.interval_minutes ∧
  c.workdays ≠ [] ∧ (∀ d ∈ c.workdays, 1 ≤ d ∧ d ≤ 7) ∧
  c.off_work_time ≠ "" ∧ (parse_time c.off_work_time).isSome

/-- The worked example configuration of the specification: one work period
09:00-18:00, one block period 12:00-13:30, hourly interval, Monday-Friday. -/
def exampleConfig : Config where
  work_periods := [⟨"09:00", "18:00"⟩]
  block_periods := [⟨"12:00", "13:30"⟩]
  interval_minutes := 60
  auto_start := false
  workdays := [1, 2, 3, 4, 5]
  off_work_time := "18:00"
  off_work_reminder_enabled := true

/-- Saturday 10:00 (epoch day 0 is a Monday, so day 5 is a Saturday). -/
def satTen : Int := 5 * usPerDay + 10 * 3600 * usPerSec

/-- Saturday 13:30 of the same week. -/
def satThirteenThirty : Int := 5 * usPerDay + (13 * 3600 + 30 * 60) * usPerSec

/-- Monday 09:00 of the following week (day 7). -/
def nextMondayNine : Int := 7 * usPerDay + 9 * 3600 * usPerSec

/-- Friday 19:00 (day 4), after the work period has ended. -/
def friNineteen : Int := 4 * usPerDay + 19 * 3600 * usPerSec

/-- Saturday 09:00 (day 5). -/
def satNine : Int := 5 * usPerDay + 9 * 3600 * usPerSec

/-- Monday 10:00 (day 0). -/
def monTen : Int := 10 * 3600 * usPerSec

/-- Monday 09:00 (day 0). -/
def monNine : Int := 9 * 3600 * usPerSec

/-- Monday 09:30 (day 0). -/
def monNineThirty : Int := (9 * 3600 + 30 * 60) * usPerSec

/-- Tuesday 17:50 (day 1), exactly ten minutes before the 18:00 off-work
time. -/
def tueSeventeenFifty : Int := usPerDay + (17 * 3600 + 50 * 60) * usPerSec

/-! ## Helper lemmas -/

theorem effectiveCond_work_ne_nil {cfg : Config} {now : Int}
    (h : effectiveCond cfg now = true) : cfg.work_periods ≠ [] := by
  intro hw
  simp [effectiveCond, inWorkPeriodB, inAnyWindow, hw] at h

theorem parse_time_fields {s : String} {t : PyTime}
    (h : parse_time s = some t) :
    t.hour ≤ 23 ∧ t.minute ≤ 59 ∧ t.second = 0 ∧ t.microsecond = 0 := by
  unfold parse_time at h
  split at h
  · next hs ms _ =>
    rcases hh : pyInt hs with _ | h1 <;> rcases hm : pyInt ms with _ | m1 <;>
      rw [hh, hm] at h <;> simp at h
    obtain ⟨⟨hh0, hh1, hm0, hm1⟩, rfl⟩ := h
    refine ⟨?_, ?_, rfl, rfl⟩
    · show h1.toNat ≤ 23
      omega
    · show m1.toNat ≤ 59
      omega
  · exact absurd h (by simp)

theorem parse_time_toMicros_lt {s : String} {t : PyTime}
    (h : parse_time s = some t) : (t.toMicros : Int) < usPerDay := by
  obtain ⟨h1, h2, h3, h4⟩ := parse_time_fields h
  have : t.toMicros ≤ 86340000000 := by
    unfold PyTime.toMicros
    rw [h3, h4]
    omega
  unfold usPerDay
  omega

theorem pyRound_intCast (n : Int) : pyRound (n : ℚ) = n := by
  unfold pyRound
  norm_num

theorem dtDate_mono {a b : Int} (h : a ≤ b) : dtDate a ≤ dtDate b := by
  unfold dtDate usPerDay
  omega

theorem dtDate_mul_le (t : Int) : dtDate t * usPerDay ≤ t := by
  unfold dtDate usPerDay
  omega

theorem lt_dtDate_add_one_mul (t : Int) : t < (dtDate t + 1) * usPerDay := by
  unfold dtDate usPerDay
  omega

theorem dtDate_combine (day : Int) {t : PyTime}
    (ht : (t.toMicros : Int) < usPerDay) : dtDate (combine day t) = day := by
  unfold usPerDay at ht
  unfold dtDate combine usPerDay
  omega

theorem offWorkCheck_fst (cfg : Config) (st : State) (now : Int) :
    (offWorkCheck cfg st now).1 =
      (offWindowCond cfg now &&
        decide (st.last_off_work_reminder_date ≠ some (dtDate now))) := by
  unfold offWorkCheck
  by_cases h : offWindowCond cfg now
  · by_cases h2 : st.last_off_work_reminder_date ≠ some (dtDate now) <;>
      simp [h, h2]
  · simp [h]

theorem offWorkCheck_snd_of_fired {cfg : Config} {st : State} {now : Int}
    (h : (offWorkCheck cfg st now).1 = true) :
    (offWorkCheck cfg st now).2 = some (dtDate now) := by
  unfold offWorkCheck at h ⊢
  by_cases h1 : offWindowCond cfg now
  · by_cases h2 : st.last_off_work_reminder_date ≠ some (dtDate now)
    · simp [h1, h2]
    · simp [h1, h2] at h
  · simp [h1] at h

theorem offWorkCheck_snd_of_not_fired {cfg : Config} {st : State} {now : Int}
    (h : (offWorkCheck cfg st now).1 = false) :
    (offWorkCheck cfg st now).2 = st.last_off_work_reminder_date := by
  unfold offWorkCheck at h ⊢
  by_cases h1 : offWindowCond cfg now
  · by_cases h2 : st.last_off_work_reminder_date ≠ some (dtDate now)
    · simp [h1, h2] at h
    · simp [h1, h2]
  · simp [h1]

theorem tick_offFired_sets_date {cfg : Config} {st : State} {now : Int}
    (h : (tick cfg st now).offWorkFired = true) :
    (tick cfg st now).state.last_off_work_reminder_date = some (dtDate now) := by
  unfold tick at h ⊢
  by_cases hw : cfg.work_periods = []
  · simp [hw] at h
  · simp only [hw, if_neg, if_false] at h ⊢
    rw [offWorkCheck_snd_of_fired h]
    simp [dailyReset]

theorem tick_same_date_no_offFire {cfg : Config} {st : State} {now : Int}
    (h : st.last_off_work_reminder_date = some (dtDate now)) :
    (tick cfg st now).offWorkFired = false := by
  unfold tick
  by_cases hw : cfg.work_periods = []
  · simp [hw]
  · simp only [hw, if_neg, if_false]
    rw [offWorkCheck_fst, h]
    simp

theorem tick_same_date_keeps_lastOff {cfg : Config} {st : State} {now : Int}
    (h : st.last_off_work_reminder_date = some (dtDate now)) :
    (tick cfg st now).state.last_off_work_reminder_date = some (dtDate now) := by
  unfold tick
  by_cases hw : cfg.work_periods = []
  · simp [hw, h]
  · simp only [hw, if_neg, if_false]
    have hf : (offWorkCheck cfg st now).1 = false := by
      rw [offWorkCheck_fst, h]
      simp
    rw [offWorkCheck_snd_of_not_fired hf, h]
    simp [dailyReset]

theorem tick_not_offFired_lastOff {cfg : Config} {st : State} {now : Int}
    (h : (tick cfg st now).offWorkFired = false) :
    (tick cfg st now).state.last_off_work_reminder_date =
        st.last_off_work_reminder_date ∨
      (tick cfg st now).state.last_off_work_reminder_date =
        dailyReset st.last_off_work_reminder_date (dtDate now) := by
  unfold tick at h ⊢
  by_cases hw : cfg.work_periods = []
  · simp [hw]
  · simp only [hw, if_neg, if_false] at h ⊢
    right
    rw [offWorkCheck_snd_of_not_fired h]

/-- Every fired end-of-shift date is the date of one of the tick times. -/
theorem firedDates_mem (cfg : Config) :
    ∀ (nows : List Int) (st : State), ∀ d ∈ firedDates cfg st nows,
      ∃ n ∈ nows, d = dtDate n := by
  intro nows
  induction nows with
  | nil => intro st d hd; simp [firedDates] at hd
  | cons n ns ih =>
    intro st d hd
    unfold firedDates at hd
    by_cases hf : (tick cfg st n).offWorkFired
    · rw [if_pos hf] at hd
      rcases List.mem_cons.mp hd with rfl | hd
      · exact ⟨n, List.mem_cons_self n ns, rfl⟩
      · obtain ⟨m, hm, rfl⟩ := ih _ _ hd
        exact ⟨m, List.mem_cons_of_mem n hm, rfl⟩
    · rw [if_neg hf] at hd
      obtain ⟨m, hm, rfl⟩ := ih _ _ hd
      exact ⟨m, List.mem_cons_of_mem n hm, rfl⟩

/-- Once the latch holds date `c` and every upcoming tick's date is `≥ c`,
every subsequently fired date is strictly later than `c`. -/
theorem firedDates_lower (cfg : Config) :
    ∀ (nows : List Int) (st : State) (c : Int),
      nows.Pairwise (· ≤ ·) →
      st.last_off_work_reminder_date = some c →
      (∀ n ∈ nows, c ≤ dtDate n) →
      ∀ d ∈ firedDates cfg st nows, c < d := by
  intro nows
  induction nows with
  | nil => intro st c _ _ _ d hd; simp [firedDates] at hd
  | cons n ns ih =>
    intro st c hp hst hdates d hd
    have hcn : c ≤ dtDate n := hdates n (List.mem_cons_self n ns)
    have htail : ∀ m ∈ ns, dtDate n ≤ dtDate m := fun m hm =>
      dtDate_mono ((List.pairwise_cons.mp hp).1 m hm)
    have hptail : ns.Pairwise (· ≤ ·) := (List.pairwise_cons.mp hp).2
    unfold firedDates at hd
    by_cases hf : (tick cfg st n).offWorkFired
    · rw [if_pos hf] at hd
      have hne : dtDate n ≠ c := by
        intro hc
        rw [← hc] at hst
        exact absurd hf (by simp [tick_same_date_no_offFire hst])
      have hcd : c < dtDate n := lt_of_le_of_ne hcn (Ne.symm hne)
      rcases List.mem_cons.mp hd with rfl | hd
      · exact hcd
      · have := ih (tick cfg st n).state (dtDate n) hptail
          (tick_offFired_sets_date hf) htail d hd
        omega
    · rw [if_neg hf] at hd
      rcases tick_not_offFired_lastOff (Bool.not_eq_true _ ▸ hf) with hk | hk
      · exact ih _ c hptail (hk.trans hst)
          (fun m hm => le_trans hcn (htail m hm)) d hd
      · rw [hst] at hk
        simp only [dailyReset] at hk
        by_cases hlt : c < dtDate n
        · rw [if_pos hlt] at hk
          obtain ⟨m, hm, rfl⟩ := firedDates_mem cfg ns _ d hd
          have := htail m hm
          omega
        · rw [if_neg hlt] at hk
          exact ih _ c hptail hk
            (fun m hm => le_trans hcn (htail m hm)) d hd

/-- Over any chronologically ordered sequence of ticks, the fired
end-of-shift dates are strictly increasing. -/
theorem firedDates_pairwise (cfg : Config) :
    ∀ (nows : List Int) (st : State), nows.Pairwise (· ≤ ·) →
      (firedDates cfg st nows).Pairwise (· < ·) := by
  intro nows
  induction nows with
  | nil => intro st _; simp [firedDates]
  | cons n ns ih =>
    intro st hp
    have htail : ∀ m ∈ ns, dtDate n ≤ dtDate m := fun m hm =>
      dtDate_mono ((List.pairwise_cons.mp hp).1 m hm)
    have hptail : ns.Pairwise (· ≤ ·) := (List.pairwise_cons.mp hp).2
    unfold firedDates
    by_cases hf : (tick cfg st n).offWorkFired
    · rw [if_pos hf]
      refine List.pairwise_cons.mpr ⟨?_, ih _ hptail⟩
      intro d hd
      exact firedDates_lower cfg ns _ (dtDate n) hptail
        (tick_offFired_sets_date hf) htail d hd
    · rw [if_neg hf]
      exact ih _ hptail

/-- A tick on a strictly later date than the stored latch date fires the
end-of-shift notification whenever the (latch-independent) firing guard
holds. -/
theorem tick_later_date_fires {cfg : Config} {st : State} {now : Int} {D : Int}
    (hst : st.last_off_work_reminder_date = some D) (hD : D < dtDate now)
    (hw : cfg.work_periods ≠ []) (hc : offWindowCond cfg now = true) :
    (tick cfg st now).offWorkFired = true := by
  unfold tick
  simp only [hw, if_neg, if_false]
  rw [offWorkCheck_fst, hc, hst]
  simp
  omega

/-! ## Claim theorems -/

/-- C3: for every time window and every clock time `t`, if
`window.start <= window.end` the membership test is true iff
`start <= t <= end` (both boundaries inclusive); if `window.start >
window.end` (wraps midnight) it is true iff `t >= start OR t <= end`. -/
theorem c3_time_in_range_spec (w_start w_end t : PyTime) :
    (w_start ≤ w_end →
      (time_in_range w_start w_end t = true ↔ w_start ≤ t ∧ t ≤ w_end)) ∧
    (w_end < w_start →
      (time_in_range w_start w_end t = true ↔ w_start ≤ t ∨ t ≤ w_end)) := by
  constructor
  · intro h
    simp [time_in_range, h]
  · intro h
    have h2 : ¬ w_start ≤ w_end := by
      show ¬ w_start.toMicros ≤ w_end.toMicros
      exact Nat.not_le.mpr h
    simp [time_in_range, h2]

/-- Witness for `c3_time_in_range_spec` at the window `09:00-18:00` and the
boundary time `18:00`. -/
theorem c3_time_in_range_spec_witness :
    ((⟨9, 0, 0, 0⟩ : PyTime) ≤ ⟨18, 0, 0, 0⟩) ∧
    (time_in_range ⟨9, 0, 0, 0⟩ ⟨18, 0, 0, 0⟩ ⟨18, 0, 0, 0⟩ = true ↔
      (⟨9, 0, 0, 0⟩ : PyTime) ≤ ⟨18, 0, 0, 0⟩ ∧
        (⟨18, 0, 0, 0⟩ : PyTime) ≤ ⟨18, 0, 0, 0⟩) :=
  ⟨by decide,
   (c3_time_in_range_spec ⟨9, 0, 0, 0⟩ ⟨18, 0, 0, 0⟩ ⟨18, 0, 0, 0⟩).1 (by decide)⟩

/-- C9: a configured window whose start or end text does not parse as HH:MM
yields a parse failure value (`none`, never an exception — `parse_time` is a
total function), and that window is skipped: it matches no clock time, and
removing it from a period list does not change the any-window test.  The
ticking functions are likewise total, so a malformed entry never aborts a
tick. -/
theorem c9_malformed_window_skipped (p : Period) (t : PyTime)
    (l1 l2 : List Period)
    (h : parse_time p.start = none ∨ parse_time p.«end» = none) :
    windowMatch p t = false ∧
    inAnyWindow (l1 ++ p :: l2) t = inAnyWindow (l1 ++ l2) t := by
  have hm : windowMatch p t = false := by
    unfold windowMatch
    rcases hs : parse_time p.start with _ | s <;>
      rcases he : parse_time p.«end» with _ | e <;> simp_all
  refine ⟨hm, ?_⟩
  simp [inAnyWindow, List.any_append, List.any_cons, hm]

/-- Witness for `c9_malformed_window_skipped`: the window `{"xx", "18:00"}`
matches nothing and is skipped. -/
theorem c9_malformed_window_skipped_witness :
    (parse_time (Period.mk "xx" "18:00").start = none ∨
      parse_time (Period.mk "xx" "18:00").«end» = none) ∧
    (windowMatch ⟨"xx", "18:00"⟩ ⟨10, 0, 0, 0⟩ = false ∧
      inAnyWindow ([] ++ ⟨"xx", "18:00"⟩ :: [⟨"09:00", "18:00"⟩]) ⟨10, 0, 0, 0⟩ =
        inAnyWindow ([] ++ [⟨"09:00", "18:00"⟩]) ⟨10, 0, 0, 0⟩) :=
  ⟨Or.inl (by decide),
   c9_malformed_window_skipped ⟨"xx", "18:00"⟩ ⟨10, 0, 0, 0⟩ [] [⟨"09:00", "18:00"⟩]
     (Or.inl (by decide))⟩

/-- C10: every configuration `load_config` returns has every key of the
default configuration (in the embedding `Config` is a total record, matching
the merge loop of src lines 79-81), its `work_periods` and `block_periods`
are non-empty (an empty or missing list is replaced by the defaults), and on
a missing file or any read/parse error the default configuration is
returned. -/
theorem c10_load_config_invariants (s : ConfigStore) :
    (load_config s).work_periods ≠ [] ∧
    (load_config s).block_periods ≠ [] ∧
    ((s = ConfigStore.missing ∨ s = ConfigStore.unreadable) →
      load_config s = default_config) := by
  rcases s with _ | _ | r
  · exact ⟨by decide, by decide, fun _ => rfl⟩
  · exact ⟨by decide, by decide, fun _ => rfl⟩
  · refine ⟨?_, ?_, by intro h; rcases h with h | h <;> simp at h⟩
    · show (processRaw r).work_periods ≠ []
      unfold processRaw
      simp only []
      split <;>
      · split
        · decide
        · next h2 => exact h2
    · show (processRaw r).block_periods ≠ []
      unfold processRaw
      simp only []
      split <;>
      · split
        · decide
        · next h2 => exact h2

/-- Witness for `c10_load_config_invariants` at a missing config file. -/
theorem c10_load_config_invariants_witness :
    (load_config ConfigStore.missing).work_periods ≠ [] ∧
    (load_config ConfigStore.missing).block_periods ≠ [] ∧
    load_config ConfigStore.missing = default_config :=
  ⟨(c10_load_config_invariants ConfigStore.missing).1,
   (c10_load_config_invariants ConfigStore.missing).2.1,
   (c10_load_config_invariants ConfigStore.missing).2.2 (Or.inl rfl)⟩

/-- C7 counterexample: the claim fails as stated.  This configuration with an
empty `blockPeriods` list passes validation, but saving and re-loading it
replaces the empty list by the default block period `12:00-13:30`
(src lines 85-86), so the loaded configuration differs field-for-field. -/
def emptyBlockConfig : Config where
  work_periods := [⟨"09:00", "18:00"⟩]
  block_periods := []
  interval_minutes := 60
  auto_start := false
  workdays := [1, 2, 3, 4, 5]
  off_work_time := "18:00"
  off_work_reminder_enabled := true

/-- C7 is false as stated: a validated configuration with empty
`block_periods` does not round-trip through `save_config`/`load_config`. -/
theorem c7_roundtrip_counterexample :
    validatedConfig emptyBlockConfig ∧
    load_config (ConfigStore.stored (save_config emptyBlockConfig)) ≠
      emptyBlockConfig := by
  constructor
  · refine ⟨by decide, by decide, by decide, by decide, by decide, by decide,
      by decide, by decide⟩
  · decide

/-- C7 (amended): every validated configuration whose `block_periods` list is
non-empty round-trips field-for-field through `save_config` then
`load_config`. -/
theorem c7_roundtrip_amended (c : Config) (hv : validatedConfig c)
    (hb : c.block_periods ≠ []) :
    load_config (ConfigStore.stored (save_config c)) = c := by
  rcases c with ⟨wp, bp, i, a, w, o, e⟩
  have hw : wp ≠ [] := hv.1
  unfold load_config processRaw save_config
  simp [hw, hb]

/-- Witness for `c7_roundtrip_amended` at the example configuration. -/
theorem c7_roundtrip_amended_witness :
    validatedConfig exampleConfig ∧ exampleConfig.block_periods ≠ [] ∧
    load_config (ConfigStore.stored (save_config exampleConfig)) =
      exampleConfig :=
  ⟨⟨by decide, by decide, by decide, by decide, by decide, by decide,
     by decide, by decide⟩, by decide,
   c7_roundtrip_amended exampleConfig
     ⟨by decide, by decide, by decide, by decide, by decide, by decide,
      by decide, by decide⟩ (by decide)⟩

/-- C5 is false as stated: with the example configuration, a tick at
Saturday 10:00 computes `isWorkday = false`, but `nextReminderAt` is not the
next Monday 09:00. -/
theorem c5_saturday_counterexample :
    isWorkdayB exampleConfig satTen = false ∧
    (tick exampleConfig initialState satTen).state.next_reminder ≠
      some nextMondayNine :=
  ⟨by decide, by decide⟩

/-- C5 (amended): with the example configuration, a tick at Saturday 10:00
computes `isWorkday = false` and sets `nextReminderAt` to Saturday 13:30 —
the block-period end candidate, which the code considers regardless of
workday (src lines 841-847) and which precedes the next-Monday-09:00
work-start candidate also present in the candidate list. -/
theorem c5_saturday_amended :
    isWorkdayB exampleConfig satTen = false ∧
    (tick exampleConfig initialState satTen).state.next_reminder =
      some satThirteenThirty ∧
    nextMondayNine ∈ nextTimes exampleConfig satTen ∧
    satThirteenThirty < nextMondayNine :=
  ⟨by decide, by decide, by decide, by decide⟩

/-- C2 is false as stated: on a first tick outside the active window
(Saturday 10:00, not a workday) the scheduler does not set `lastReminderAt`,
does not clear the first-tick flag, and does not set `nextReminderAt` to
`now + intervalMinutes`. -/
theorem c2_first_tick_counterexample :
    initialState.is_first_start = true ∧
    (tick exampleConfig initialState satTen).standUpFired = false ∧
    (tick exampleConfig initialState satTen).state.last_reminder_time ≠
      some satTen ∧
    (tick exampleConfig initialState satTen).state.is_first_start = true ∧
    (tick exampleConfig initialState satTen).state.next_reminder ≠
      some (satTen + exampleConfig.interval_minutes * usPerMin) :=
  ⟨rfl, by decide, by decide, by decide, by decide⟩

/-- C2 (amended): on the very first tick the scheduler never fires a
stand-up reminder; when additionally the tick falls inside a work period on
a workday and outside every block period, it sets `lastReminderAt = now`,
clears the first-tick flag and sets `nextReminderAt = now + intervalMinutes`;
otherwise the first-tick handling is deferred: `lastReminderAt` and the
still-set flag are left unchanged (src lines 792-798 put the first-tick
branch inside the active-window condition). -/
theorem c2_first_tick_amended (cfg : Config) (st : State) (now : Int)
    (h : st.is_first_start = true) :
    (tick cfg st now).standUpFired = false ∧
    (effectiveCond cfg now = true →
      (tick cfg st now).state.last_reminder_time = some now ∧
      (tick cfg st now).state.is_first_start = false ∧
      (tick cfg st now).state.next_reminder =
        some (now + cfg.interval_minutes * usPerMin)) ∧
    (effectiveCond cfg now = false →
      (tick cfg st now).state.last_reminder_time = st.last_reminder_time ∧
      (tick cfg st now).state.is_first_start = true) := by
  by_cases hw : cfg.work_periods = []
  · refine ⟨by simp [tick, hw], ?_, ?_⟩
    · intro he
      exact absurd hw (effectiveCond_work_ne_nil he)
    · intro _
      simp [tick, hw, h]
  · refine ⟨?_, ?_, ?_⟩
    · simp only [tick, hw, if_neg, if_false]
      by_cases he : effectiveCond cfg now
      · simp [mainDecision, he, h]
      · simp [mainDecision, he]
    · intro he
      simp [tick, hw, mainDecision, he, h]
    · intro he
      simp [tick, hw, mainDecision, he, h]

/-- Witness for `c2_first_tick_amended`: first tick at Monday 10:00 inside
the example work period. -/
theorem c2_first_tick_amended_witness :
    initialState.is_first_start = true ∧
    ((tick exampleConfig initialState monTen).standUpFired = false ∧
     (effectiveCond exampleConfig monTen = true →
       (tick exampleConfig initialState monTen).state.last_reminder_time =
         some monTen ∧
       (tick exampleConfig initialState monTen).state.is_first_start = false ∧
       (tick exampleConfig initialState monTen).state.next_reminder =
         some (monTen + exampleConfig.interval_minutes * usPerMin)) ∧
     (effectiveCond exampleConfig monTen = false →
       (tick exampleConfig initialState monTen).state.last_reminder_time =
         initialState.last_reminder_time ∧
       (tick exampleConfig initialState monTen).state.is_first_start = true)) :=
  ⟨rfl, c2_first_tick_amended exampleConfig initialState monTen rfl⟩

/-- C1: on every non-first tick, the stand-up notification fires iff today's
weekday is in `workdays`, `now.time()` lies in at least one work period,
`now.time()` lies in no block period, and `lastReminderAt` is unset or at
least `intervalMinutes * 60` seconds have elapsed since it; when it fires,
`lastReminderAt` becomes `now` and `nextReminderAt` becomes
`now + intervalMinutes`. -/
theorem c1_standup_fire_iff (cfg : Config) (st : State) (now : Int)
    (h : st.is_first_start = false) :
    ((tick cfg st now).standUpFired =
      (isWorkdayB cfg now && inAnyWindow cfg.work_periods (dtTime now) &&
        !inAnyWindow cfg.block_periods (dtTime now) &&
        match st.last_reminder_time with
        | none => true
        | some last =>
          decide (cfg.interval_minutes * 60 * usPerSec ≤ now - last))) ∧
    ((tick cfg st now).standUpFired = true →
      (tick cfg st now).state.last_reminder_time = some now ∧
      (tick cfg st now).state.next_reminder =
        some (now + cfg.interval_minutes * usPerMin)) := by
  by_cases hw : cfg.work_periods = []
  · constructor
    · simp [tick, hw, inAnyWindow]
    · simp [tick, hw]
  · constructor
    · by_cases he : effectiveCond cfg now
      · have hand := he
        unfold effectiveCond inWorkPeriodB inBlockPeriodB at hand
        rw [Bool.and_eq_true, Bool.and_eq_true] at hand
        obtain ⟨⟨hW, hA⟩, hB⟩ := hand
        rw [Bool.not_eq_true'] at hB
        rcases hl : st.last_reminder_time with _ | last
        · simp [tick, hw, mainDecision, he, h, hl, hW, hA, hB]
        · by_cases hi : cfg.interval_minutes * 60 * usPerSec ≤ now - last
          · simp [tick, hw, mainDecision, he, h, hl, hW, hA, hB, hi]
          · simp [tick, hw, mainDecision, he, h, hl, hW, hA, hB, hi]
      · have hf : (tick cfg st now).standUpFired = false := by
          simp [tick, hw, mainDecision, he]
        rw [hf]
        cases hWv : isWorkdayB cfg now <;>
          cases hAv : inAnyWindow cfg.work_periods (dtTime now) <;>
          cases hBv : inAnyWindow cfg.block_periods (dtTime now) <;>
          simp_all [effectiveCond, inWorkPeriodB, inBlockPeriodB]
    · intro hfire
      by_cases he : effectiveCond cfg now
      · rcases hl : st.last_reminder_time with _ | last
        · constructor <;> simp [tick, hw, mainDecision, he, h, hl]
        · by_cases hi : cfg.interval_minutes * 60 * usPerSec ≤ now - last
          · constructor <;> simp [tick, hw, mainDecision, he, h, hl, hi]
          · exfalso
            simp [tick, hw, mainDecision, he, h, hl, hi] at hfire
      · exfalso
        simp [tick, hw, mainDecision, he] at hfire

/-- Witness for `c1_standup_fire_iff`: a non-first tick at Monday 10:00 with
the last reminder at 09:00 fires after the 60-minute interval. -/
theorem c1_standup_fire_iff_witness :
    (State.mk (some monNine) none none false).is_first_start = false ∧
    (((tick exampleConfig ⟨some monNine, none, none, false⟩ monTen).standUpFired =
       (isWorkdayB exampleConfig monTen &&
         inAnyWindow exampleConfig.work_periods (dtTime monTen) &&
         !inAnyWindow exampleConfig.block_periods (dtTime monTen) &&
         match (State.mk (some monNine) none none false).last_reminder_time with
         | none => true
         | some last =>
           decide (exampleConfig.interval_minutes * 60 * usPerSec ≤
             monTen - last))) ∧
     ((tick exampleConfig ⟨some monNine, none, none, false⟩ monTen).standUpFired =
         true →
       (tick exampleConfig ⟨some monNine, none, none, false⟩
           monTen).state.last_reminder_time = some monTen ∧
       (tick exampleConfig ⟨some monNine, none, none, false⟩
           monTen).state.next_reminder =
         some (monTen + exampleConfig.interval_minutes * usPerMin))) :=
  ⟨rfl, c1_standup_fire_iff exampleConfig ⟨some monNine, none, none, false⟩
    monTen rfl⟩

/-- C8: on a non-first tick where the effective condition holds but fewer
than `intervalMinutes` have elapsed since `lastReminderAt`, nothing fires and
the recomputed `nextReminderAt` — the code's
`now + timedelta(minutes = interval - elapsed)` — equals
`lastReminderAt + intervalMinutes` exactly. -/
theorem c8_not_elapsed_next (cfg : Config) (st : State) (now last : Int)
    (h : st.is_first_start = false)
    (hl : st.last_reminder_time = some last)
    (he : effectiveCond cfg now = true)
    (hi : now - last < cfg.interval_minutes * 60 * usPerSec) :
    (tick cfg st now).standUpFired = false ∧
    (tick cfg st now).state.next_reminder =
      some (last + cfg.interval_minutes * usPerMin) := by
  have hw := effectiveCond_work_ne_nil he
  have hni : ¬ (cfg.interval_minutes * 60 * usPerSec ≤ now - last) := by omega
  have harg : ((cfg.interval_minutes : ℚ) -
      ((now : ℚ) - (last : ℚ)) / 1000000 / 60) * 60 * 1000000 =
      ((cfg.interval_minutes * usPerMin - (now - last) : Int) : ℚ) := by
    push_cast [usPerMin]
    ring
  constructor
  · simp [tick, hw, mainDecision, he, h, hl, hni]
  · simp only [tick, hw, if_neg, if_false]
    simp [mainDecision, he, h, hl, hni]
    rw [harg, pyRound_intCast]
    unfold usPerMin
    omega

/-- Witness for `c8_not_elapsed_next`: Monday 09:30, last reminder 09:00,
interval 60 minutes. -/
theorem c8_not_elapsed_next_witness :
    (State.mk (some monNine) none none false).is_first_start = false ∧
    (State.mk (some monNine) none none false).last_reminder_time =
      some monNine ∧
    effectiveCond exampleConfig monNineThirty = true ∧
    monNineThirty - monNine < exampleConfig.interval_minutes * 60 * usPerSec ∧
    ((tick exampleConfig ⟨some monNine, none, none, false⟩
        monNineThirty).standUpFired = false ∧
     (tick exampleConfig ⟨some monNine, none, none, false⟩
        monNineThirty).state.next_reminder =
       some (monNine + exampleConfig.interval_minutes * usPerMin)) :=
  ⟨rfl, rfl, by decide, by decide,
   c8_not_elapsed_next exampleConfig ⟨some monNine, none, none, false⟩
     monNineThirty monNine rfl rfl (by decide) (by decide)⟩

/-- C6 is false as stated: at Friday 19:00 (a workday, after the work period
has ended) the rolled-forward work-start candidate Saturday 09:00 is
considered, and it does not fall on an allowed workday. -/
theorem c6_candidates_counterexample :
    satNine ∈ workStartCandidates exampleConfig friNineteen ∧
    dtDate satNine % 7 + 1 ∉ exampleConfig.workdays :=
  ⟨by decide, by decide⟩

/-- C6 (amended): every work-period-start candidate considered by the
next-occurrence computation is strictly later than `now`.  When today is not
a workday the candidate comes from the day-by-day search of up to 7 days and
falls on an allowed workday, and it is omitted when the search finds no
allowed workday; but when today is a workday, a start time that has already
passed is rolled forward exactly one day regardless of whether that day is
an allowed workday. -/
theorem c6_next_candidates_amended (cfg : Config) (now : Int) :
    (∀ c ∈ workStartCandidates cfg now, now < c) ∧
    (∀ c ∈ weekendCandidates cfg now,
      now < c ∧ dtDate c % 7 + 1 ∈ cfg.workdays) ∧
    (nextWorkdayDaysAhead (dtWeekday now) cfg.workdays = none →
      weekendCandidates cfg now = []) := by
  refine ⟨?_, ?_, ?_⟩
  · intro c hc
    unfold workStartCandidates at hc
    by_cases hwd : isWorkdayB cfg now
    · rw [if_pos hwd] at hc
      obtain ⟨p, hp, heq⟩ := List.mem_filterMap.mp hc
      obtain ⟨t, hpt, heq2⟩ := Option.map_eq_some'.mp heq
      have h1 := lt_dtDate_add_one_mul now
      have h0 : (0 : Int) ≤ (t.toMicros : Int) := Int.ofNat_nonneg _
      by_cases hle : combine (dtDate now) t ≤ now
      · have hc2 : c = combine (dtDate now) t + usPerDay := by
          rw [← heq2]
          simp [hle]
        rw [hc2]
        unfold combine at hle ⊢
        unfold usPerDay at h1 hle ⊢
        omega
      · have hc2 : c = combine (dtDate now) t := by
          rw [← heq2]
          simp [hle]
        rw [hc2]
        unfold combine at hle ⊢
        unfold usPerDay at hle ⊢
        omega
    · rw [if_neg hwd] at hc
      simp at hc
  · intro c hc
    unfold weekendCandidates at hc
    split at hc
    · split at hc
      · next da hda =>
        split at hc
        · simp at hc
        · next p rest hwp =>
          split at hc
          · next t hpt =>
            rw [List.mem_singleton] at hc
            have hda1 : 1 ≤ da ∧ da ≤ 7 := by
              have hmem := List.mem_of_find?_eq_some hda
              obtain ⟨i, hi, rfl⟩ := List.mem_map.mp hmem
              have := List.mem_range.mp hi
              omega
            have hpred := List.find?_some hda
            rw [decide_eq_true_eq] at hpred
            have htm := parse_time_toMicros_lt hpt
            have hdc : dtDate c = dtDate now + (da : Int) := by
              rw [hc]
              exact dtDate_combine _ htm
            constructor
            · have h1 := lt_dtDate_add_one_mul now
              have h0 : (0 : Int) ≤ (t.toMicros : Int) := Int.ofNat_nonneg _
              rw [hc]
              unfold combine
              unfold usPerDay at h1 ⊢
              have hda1' : (1 : Int) ≤ (da : Int) := by exact_mod_cast hda1.1
              omega
            · rw [hdc]
              have hmod : (dtDate now + (da : Int)) % 7 =
                  (dtWeekday now + (da : Int) - 1) % 7 := by
                unfold dtWeekday
                omega
              rw [hmod]
              exact hpred
          · simp at hc
      · next hda =>
        simp at hc
    · simp at hc
  · intro hda
    unfold weekendCandidates
    split
    · simp [hda]
    · rfl

/-- Witness for `c6_next_candidates_amended`: the Friday 19:00 work-start
candidate and the Saturday 10:00 weekend candidate of the example
configuration. -/
theorem c6_next_candidates_amended_witness :
    (satNine ∈ workStartCandidates exampleConfig friNineteen ∧
      friNineteen < satNine) ∧
    (nextMondayNine ∈ weekendCandidates exampleConfig satTen ∧
      satTen < nextMondayNine ∧
      dtDate nextMondayNine % 7 + 1 ∈ exampleConfig.workdays) :=
  ⟨⟨by decide,
    (c6_next_candidates_amended exampleConfig friNineteen).1 satNine (by decide)⟩,
   ⟨by decide,
    (c6_next_candidates_amended exampleConfig satTen).2.1 nextMondayNine
      (by decide)⟩⟩

/-- C4: across any chronologically ordered sequence of ticks the end-of-shift
notification fires at most once per calendar date — the list of fired dates
is strictly increasing even if ticks repeatedly fall inside the ±30-second
window — and once the wall-clock date has advanced past the latched date,
the latch no longer suppresses firing: a tick on a strictly later date fires
whenever the latch-independent firing guard holds. -/
theorem c4_offwork_once_per_date (cfg : Config) :
    (∀ (st0 : State) (nows : List Int), nows.Pairwise (· ≤ ·) →
      (firedDates cfg st0 nows).Pairwise (· < ·)) ∧
    (∀ (st : State) (now D : Int),
      st.last_off_work_reminder_date = some D → D < dtDate now →
      cfg.work_periods ≠ [] → offWindowCond cfg now = true →
      (tick cfg st now).offWorkFired = true) :=
  ⟨fun st0 nows hp => firedDates_pairwise cfg nows st0 hp,
   fun _ _ _ hst hD hw hc => tick_later_date_fires hst hD hw hc⟩

/-- Witness for `c4_offwork_once_per_date`: two ticks inside the ±30 s
window at Tuesday 17:50, and a latched Monday date cleared on Tuesday. -/
theorem c4_offwork_once_per_date_witness :
    (([tueSeventeenFifty, tueSeventeenFifty + 10 * usPerSec] :
        List Int).Pairwise (· ≤ ·) ∧
     (firedDates exampleConfig initialState
        [tueSeventeenFifty, tueSeventeenFifty + 10 * usPerSec]).Pairwise
       (· < ·)) ∧
    ((State.mk none none (some 0) false).last_off_work_reminder_date =
        some 0 ∧
     (0 : Int) < dtDate tueSeventeenFifty ∧
     exampleConfig.work_periods ≠ [] ∧
     offWindowCond exampleConfig tueSeventeenFifty = true ∧
     (tick exampleConfig ⟨none, none, some 0, false⟩
        tueSeventeenFifty).offWorkFired = true) :=
  ⟨⟨by decide,
    (c4_offwork_once_per_date exampleConfig).1 initialState
      [tueSeventeenFifty, tueSeventeenFifty + 10 * usPerSec] (by decide)⟩,
   ⟨rfl, by decide, by decide, by decide,
    (c4_offwork_once_per_date exampleConfig).2 ⟨none, none, some 0, false⟩
      tueSeventeenFifty 0 rfl (by decide) (by decide) (by decide)⟩⟩

end LetMeGo
